import Mathlib

/-!
Shallow embedding of `EditMaster.py` (the `Timecode` class) and proofs about it.

Modelling conventions:
* Python `int` values are Lean `Int`; Python floor division `//` and `%` on
  integers are `Int.fdiv` and `Int.fmod`.
* A Python exception is the `Except.error` case of `Except PyError`;
  `TimecodeArithmeticException` is `PyError.arithmeticTypeError`,
  Python's built-in `ZeroDivisionError`, `ValueError` (from `int()` on a
  non-numeric field), `NameError` and `IndexError` are the other cases.
* Heterogeneous right-hand operands of the arithmetic and comparison
  operators are the closed inductive `Operand` (string, integer, Timecode);
  numeric operands are modelled as integers.
-/

namespace EditMaster

/-- The kinds of Python exceptions the embedded code can raise. -/
inductive PyError where
  | arithmeticTypeError : PyError
  | zeroDivisionError : PyError
  | valueError : PyError
  | nameError : PyError
  | indexError : PyError
deriving DecidableEq, Repr

instance {ε α : Type} [DecidableEq ε] [DecidableEq α] : DecidableEq (Except ε α) := fun x y =>
  match x, y with
  | .ok a, .ok b =>
    if h : a = b then .isTrue (by rw [h]) else .isFalse (fun hh => h (Except.ok.inj hh))
  | .error a, .error b =>
    if h : a = b then .isTrue (by rw [h]) else .isFalse (fun hh => h (Except.error.inj hh))
  | .ok _, .error _ => .isFalse (fun hh => Except.noConfusion hh)
  | .error _, .ok _ => .isFalse (fun hh => Except.noConfusion hh)

/-- The state of a `Timecode` object: the two attributes assigned in
`Timecode.__init__` (`self.fps`, `self.total_frames`). -/
structure Timecode where
  fps : Int
  total_frames : Int
deriving DecidableEq, Repr

/-- `self.fpm` property: `self.fps*60`. -/
def Timecode.fpm (self : Timecode) : Int := self.fps * 60

/-- `self.fph` property: `self.fps*3600`. -/
def Timecode.fph (self : Timecode) : Int := self.fps * 3600

/-- Value of a decimal digit character, `none` otherwise. -/
def decDigit (c : Char) : Option Nat :=
  if '0' ≤ c ∧ c ≤ '9' then some (c.toNat - '0'.toNat) else none

/-- Accumulates the value of a decimal digit string left to right. -/
def digitsAux : List Char → Nat → Option Nat
  | [], acc => some acc
  | c :: cs, acc =>
    match decDigit c with
    | some d => digitsAux cs (acc * 10 + d)
    | none => none

/-- Python `int(s)` on the string forms the code can meet: an optional `-`
sign followed by decimal digits; anything else raises `ValueError`. -/
def pyInt : List Char → Except PyError Int
  | [] => .error .valueError
  | c :: cs =>
    if c = '-' then
      match cs, digitsAux cs 0 with
      | _ :: _, some n => .ok (-(n : Int))
      | _, _ => .error .valueError
    else
      match digitsAux (c :: cs) 0 with
      | some n => .ok (n : Int)
      | none => .error .valueError

/-- Python `timecode.split(':')` on the character list of the string. -/
def splitCols : List Char → List (List Char)
  | [] => [[]]
  | c :: rest =>
    match splitCols rest with
    | [] => [[]]
    | f :: fs => if c = ':' then [] :: f :: fs else (c :: f) :: fs

/-- The `for i,element in enumerate(tcElements): frames += int(element)*multipliers[i]`
loop of `_frame_count_for_timecode`: walking off the end of the multiplier
list raises `IndexError`, a non-numeric field raises `ValueError`. -/
def sumFields : List (List Char) → List Int → Except PyError Int
  | [], _ => .ok 0
  | _ :: _, [] => .error .indexError
  | e :: es, m :: ms =>
    match pyInt e with
    | .error err => .error err
    | .ok v =>
      match sumFields es ms with
      | .error err => .error err
      | .ok rest => .ok (v * m + rest)

/-- `Timecode._frame_count_for_timecode(self, timecode)`: split on `:`,
reverse, and sum each field times its positional weight `[1, fps, fpm, fph]`.
Every call site in the source leaves the optional `fps` argument at its
default, so the effective rate is `self.fps`, passed here directly. -/
def Timecode._frame_count_for_timecode (fps : Int) (timecode : String) : Except PyError Int :=
  let fpm := fps * 60
  let fph := fpm * 60
  let multipliers := [1, fps, fpm, fph]
  let tcElements := (splitCols timecode.data).reverse
  sumFields tcElements multipliers

/-- `Timecode.__init__(timecode, fps, total_frames)`.  The `if total_frames:`
truthiness test means both `None` and an explicit `0` fall back to parsing
the `timecode` string. -/
def Timecode.init (timecode : String) (fps : Int) (total_frames : Option Int) :
    Except PyError Timecode :=
  match total_frames with
  | some t =>
    if t ≠ 0 then .ok ⟨fps, t⟩
    else
      match Timecode._frame_count_for_timecode fps timecode with
      | .error e => .error e
      | .ok n => .ok ⟨fps, n⟩
  | none =>
    match Timecode._frame_count_for_timecode fps timecode with
    | .error e => .error e
    | .ok n => .ok ⟨fps, n⟩

/-- The default value of `__init__`'s `timecode` argument. -/
def defaultTimecode : String := "01:00:00:00"

/-- The loop body of `Timecode._tc_component_from_timebases`: given the
current leftover frames and a nonempty base list, repeatedly floor-divide,
keeping the last quotient and the final remainder. -/
def tcWhittle (leftover : Int) : Int → List Int → Int × Int
  | b, [] => (leftover.fdiv b, leftover.fmod b)
  | b, b2 :: bs => tcWhittle (leftover.fmod b) b2 bs

/-- `Timecode._tc_component_from_timebases(self, base_list)` for the nonempty
base lists the accessors pass (head given separately). -/
def Timecode._tc_component_from_timebases (self : Timecode) (b : Int) (bs : List Int) :
    Int × Int :=
  tcWhittle self.total_frames b bs

/-- `Timecode.get_frames`: remainder after whittling by `[fph, fpm, fps]`. -/
def Timecode.get_frames (self : Timecode) : Int :=
  (self._tc_component_from_timebases self.fph [self.fpm, self.fps]).2

/-- `Timecode._getSeconds`: last quotient whittling by `[fph, fpm, fps]`. -/
def Timecode._getSeconds (self : Timecode) : Int :=
  (self._tc_component_from_timebases self.fph [self.fpm, self.fps]).1

/-- `Timecode._get_minutes`: last quotient whittling by `[fph, fpm]`. -/
def Timecode._get_minutes (self : Timecode) : Int :=
  (self._tc_component_from_timebases self.fph [self.fpm]).1

/-- `Timecode._get_hours`: quotient by `[fph]`. -/
def Timecode._get_hours (self : Timecode) : Int :=
  (self._tc_component_from_timebases self.fph []).1

/-- `Timecode._set_frames(self, frames)`. -/
def Timecode._set_frames (self : Timecode) (frames : Int) : Timecode :=
  { self with total_frames := self.total_frames - self.get_frames + frames }

/-- `Timecode._set_seconds(self, seconds)`. -/
def Timecode._set_seconds (self : Timecode) (seconds : Int) : Timecode :=
  { self with total_frames :=
      self.total_frames - self._getSeconds * self.fps + seconds * self.fps }

/-- `Timecode._set_minutes(self, minutes)`. -/
def Timecode._set_minutes (self : Timecode) (minutes : Int) : Timecode :=
  { self with total_frames :=
      self.total_frames - self._get_minutes * self.fpm + minutes * self.fpm }

/-- `Timecode._set_hours(self, hours)`. -/
def Timecode._set_hours (self : Timecode) (hours : Int) : Timecode :=
  { self with total_frames :=
      self.total_frames - self._get_hours * self.fph + hours * self.fph }

/-- Python `'%02d' % n`: decimal rendering zero-padded to a minimum width
of two characters (a negative value is already at least two wide). -/
def fmt02 (n : Int) : String :=
  if (toString n).length < 2 then "0" ++ toString n else toString n

/-- `Timecode._get_timecode(self)`: `'%02d:%02d:%02d:%02d' % (hours, minutes, seconds, frames)`. -/
def Timecode._get_timecode (self : Timecode) : String :=
  fmt02 self._get_hours ++ ":" ++ fmt02 self._get_minutes ++ ":" ++
    fmt02 self._getSeconds ++ ":" ++ fmt02 self.get_frames

/-- The names bound at module level in `EditMaster.py` (imports, the module
docstring and the three top-level classes).  No function named
`_frame_count_for_timecode` is among them: it exists only as a method of
`Timecode`. -/
def moduleGlobalNames : List String :=
  ["datetime", "__doc__", "TimecodeArithmeticException", "Timecode", "editEvent"]

/-- `Timecode._set_timecode(self, timecode)`: the body evaluates the bare
name `_frame_count_for_timecode(timecode)`.  Name resolution (local →
global → builtins) never finds it, so the call raises `NameError` before
`self.total_frames` is assigned. -/
def Timecode._set_timecode (self : Timecode) (timecode : String) : Except PyError Timecode :=
  if "_frame_count_for_timecode" ∈ moduleGlobalNames then
    match Timecode._frame_count_for_timecode self.fps timecode with
    | .error e => .error e
    | .ok n => .ok { self with total_frames := n }
  else .error .nameError

/-- A right-hand operand of the arithmetic/comparison operators: the closed
set of types `_frames_from_unknown` inspects (numerics modelled as `Int`). -/
inductive Operand where
  | str (s : String) : Operand
  | int (n : Int) : Operand
  | tc (t : Timecode) : Operand
deriving DecidableEq, Repr

/-- `Timecode._frames_from_unknown(self, something)`. -/
def Timecode._frames_from_unknown (self : Timecode) : Operand → Except PyError Int
  | .str s => Timecode._frame_count_for_timecode self.fps s
  | .int n => .ok n
  | .tc t => .ok t.total_frames

/-- `Timecode.__add__`. -/
def Timecode.add (self : Timecode) (other : Operand) : Except PyError Timecode :=
  match self._frames_from_unknown other with
  | .error e => .error e
  | .ok n => Timecode.init defaultTimecode self.fps (some (self.total_frames + n))

/-- `Timecode.__sub__`. -/
def Timecode.sub (self : Timecode) (other : Operand) : Except PyError Timecode :=
  match self._frames_from_unknown other with
  | .error e => .error e
  | .ok n => Timecode.init defaultTimecode self.fps (some (self.total_frames - n))

/-- `Timecode.__div__`: the quotient `self.total_frames // otherFrames` is
computed first (`ZeroDivisionError` if the coerced divisor is zero), then the
result is a bare integer for a Timecode divisor and a new Timecode otherwise. -/
def Timecode.div (self : Timecode) (other : Operand) : Except PyError (Int ⊕ Timecode) :=
  match self._frames_from_unknown other with
  | .error e => .error e
  | .ok otherFrames =>
    if otherFrames = 0 then .error .zeroDivisionError
    else
      match other with
      | .tc _ => .ok (Sum.inl (self.total_frames.fdiv otherFrames))
      | _ =>
        match Timecode.init defaultTimecode self.fps
            (some (self.total_frames.fdiv otherFrames)) with
        | .error e => .error e
        | .ok t => .ok (Sum.inr t)

/-- `Timecode.__mod__`: a non-Timecode operand raises
`TimecodeArithmeticException` before any coercion. -/
def Timecode.mod (self : Timecode) (other : Operand) : Except PyError Timecode :=
  match other with
  | .tc t =>
    if t.total_frames = 0 then .error .zeroDivisionError
    else Timecode.init defaultTimecode self.fps
      (some (self.total_frames.fmod t.total_frames))
  | _ => .error .arithmeticTypeError

/-- `Timecode.__lt__`. -/
def Timecode.lt (self : Timecode) : Operand → Except PyError Bool
  | .tc t => .ok (decide (self.total_frames < t.total_frames))
  | _ => .error .arithmeticTypeError

/-- `Timecode.__le__`. -/
def Timecode.le (self : Timecode) : Operand → Except PyError Bool
  | .tc t => .ok (decide (self.total_frames ≤ t.total_frames))
  | _ => .error .arithmeticTypeError

/-- `Timecode.__eq__`. -/
def Timecode.eq (self : Timecode) : Operand → Except PyError Bool
  | .tc t => .ok (decide (self.total_frames = t.total_frames))
  | _ => .error .arithmeticTypeError

/-- `Timecode.__ne__`. -/
def Timecode.ne (self : Timecode) : Operand → Except PyError Bool
  | .tc t => .ok (decide (self.total_frames ≠ t.total_frames))
  | _ => .error .arithmeticTypeError

/-- `Timecode.__gt__`. -/
def Timecode.gt (self : Timecode) : Operand → Except PyError Bool
  | .tc t => .ok (decide (self.total_frames > t.total_frames))
  | _ => .error .arithmeticTypeError

/-- `Timecode.__ge__`. -/
def Timecode.ge (self : Timecode) : Operand → Except PyError Bool
  | .tc t => .ok (decide (self.total_frames ≥ t.total_frames))
  | _ => .error .arithmeticTypeError

/-- One write through a component property setter. -/
inductive ComponentWrite where
  | hours (v : Int) : ComponentWrite
  | minutes (v : Int) : ComponentWrite
  | seconds (v : Int) : ComponentWrite
  | frames (v : Int) : ComponentWrite
deriving DecidableEq, Repr

/-- Applies one component write. -/
def applyWrite (self : Timecode) : ComponentWrite → Timecode
  | .hours v => self._set_hours v
  | .minutes v => self._set_minutes v
  | .seconds v => self._set_seconds v
  | .frames v => self._set_frames v

/-- Applies a finite sequence of component writes in order. -/
def applyWrites (self : Timecode) (ws : List ComponentWrite) : Timecode :=
  ws.foldl applyWrite self

/-- Parsing the default `'01:00:00:00'` string at any rate yields one hour of
frames, `fps * 3600`. -/
lemma frame_count_default (fps : Int) :
    Timecode._frame_count_for_timecode fps defaultTimecode = .ok (fps * 3600) := by
  show sumFields ((splitCols defaultTimecode.data).reverse) [1, fps, fps * 60, fps * 60 * 60]
      = .ok (fps * 3600)
  have hsplit : (splitCols defaultTimecode.data).reverse
      = [['0', '0'], ['0', '0'], ['0', '0'], ['0', '1']] := rfl
  rw [hsplit]
  have h0 : pyInt ['0', '0'] = .ok 0 := rfl
  have h1 : pyInt ['0', '1'] = .ok 1 := rfl
  simp [sumFields, h0, h1]
  ring

/-- Constructing from an explicit frame count with the default string: any
non-zero count is taken as given, while a count of exactly `0` is falsy and
falls back to parsing `'01:00:00:00'`, i.e. `fps * 3600` frames. -/
lemma init_default_some (fps t : Int) :
    Timecode.init defaultTimecode fps (some t)
      = .ok ⟨fps, if t = 0 then fps * 3600 else t⟩ := by
  by_cases h : t = 0
  · subst h
    simp [Timecode.init, frame_count_default fps]
  · simp [Timecode.init, h]

/-- Claim C3: an explicit `total_frames` of exactly 0 behaves identically to
not providing `total_frames` at all (the string is parsed instead, so the
default string at 24 fps gives 86400, not 0), while any non-zero
`total_frames` takes precedence over the string. -/
theorem C3_total_frames_zero_falls_back (tc : String) (fps : Int) :
    Timecode.init tc fps (some 0) = Timecode.init tc fps none ∧
    (∀ t : Int, t ≠ 0 → Timecode.init tc fps (some t) = .ok ⟨fps, t⟩) ∧
    Timecode.init defaultTimecode 24 (some 0) = .ok ⟨24, 86400⟩ :=
  ⟨by simp [Timecode.init], fun t ht => by simp [Timecode.init, ht], by decide⟩

theorem C3_witness :
    Timecode.init "00:00:00:02" 30 (some 0) = Timecode.init "00:00:00:02" 30 none ∧
    Timecode.init "00:00:00:02" 30 (some 7) = .ok ⟨30, 7⟩ ∧
    Timecode.init defaultTimecode 24 (some 0) = .ok ⟨24, 86400⟩ :=
  ⟨(C3_total_frames_zero_falls_back "00:00:00:02" 30).1,
   (C3_total_frames_zero_falls_back "00:00:00:02" 30).2.1 7 (by decide),
   (C3_total_frames_zero_falls_back "00:00:00:02" 30).2.2⟩

/-- Claim C5: starting from `'00:00:05:04'` at 24 fps and assigning 70 to the
minutes component, subsequent reads yield hours=1, minutes=10, seconds=5,
frames=4 (the write only adjusts `total_frames`; the overflow into hours
appears on the next decomposition). -/
theorem C5_overflow_propagation :
    (Timecode.init "00:00:05:04" 24 none).map
      (fun t => ((t._set_minutes 70)._get_hours, (t._set_minutes 70)._get_minutes,
        (t._set_minutes 70)._getSeconds, (t._set_minutes 70).get_frames))
      = .ok (1, 10, 5, 4) := by decide

/-- Claim C6: every comparison operator fails with the arithmetic type error
whenever the other operand is not a Timecode, and between Timecodes the
comparison is decided purely by `total_frames` (fps is ignored, so equal
frame counts at different rates compare equal). -/
theorem C6_comparisons (a b : Timecode) (o : Operand)
    (ho : ∀ t : Timecode, o ≠ Operand.tc t) :
    (a.lt o = .error .arithmeticTypeError ∧ a.le o = .error .arithmeticTypeError ∧
      a.eq o = .error .arithmeticTypeError ∧ a.ne o = .error .arithmeticTypeError ∧
      a.gt o = .error .arithmeticTypeError ∧ a.ge o = .error .arithmeticTypeError) ∧
    (a.lt (Operand.tc b) = .ok (decide (a.total_frames < b.total_frames)) ∧
      a.le (Operand.tc b) = .ok (decide (a.total_frames ≤ b.total_frames)) ∧
      a.eq (Operand.tc b) = .ok (decide (a.total_frames = b.total_frames)) ∧
      a.ne (Operand.tc b) = .ok (decide (a.total_frames ≠ b.total_frames)) ∧
      a.gt (Operand.tc b) = .ok (decide (a.total_frames > b.total_frames)) ∧
      a.ge (Operand.tc b) = .ok (decide (a.total_frames ≥ b.total_frames))) ∧
    (a.total_frames = b.total_frames → a.eq (Operand.tc b) = .ok true) := by
  refine ⟨?_, ⟨rfl, rfl, rfl, rfl, rfl, rfl⟩, ?_⟩
  · cases o with
    | str s => exact ⟨rfl, rfl, rfl, rfl, rfl, rfl⟩
    | int n => exact ⟨rfl, rfl, rfl, rfl, rfl, rfl⟩
    | tc t => exact absurd rfl (ho t)
  · intro h
    simp [Timecode.eq, h]

theorem C6_witness :
    Timecode.eq ⟨24, 240⟩ (Operand.tc ⟨30, 240⟩) = .ok true ∧
    Timecode.lt ⟨24, 240⟩ (Operand.int 5) = .error .arithmeticTypeError :=
  ⟨(C6_comparisons ⟨24, 240⟩ ⟨30, 240⟩ (Operand.int 5)
      (fun _ hh => Operand.noConfusion hh)).2.2 rfl,
   (C6_comparisons ⟨24, 240⟩ ⟨30, 240⟩ (Operand.int 5)
      (fun _ hh => Operand.noConfusion hh)).1.1⟩

/-- Claim C10: assigning any string through the timecode property setter
always fails: the setter's body calls a module-level
`_frame_count_for_timecode` that is never defined, so the call raises
`NameError` before `total_frames` is assigned. -/
theorem C10_timecode_setter_nameError (st : Timecode) (s : String) :
    st._set_timecode s = .error .nameError := rfl

/-- Claim C1 counterexample: subtracting 5 frames from a 5-frame Timecode
does not give `total_frames = 5 - 5 = 0`; the constructor's truthiness check
routes the zero through parsing the default string, giving 86400. -/
theorem C1_counterexample :
    Timecode.sub ⟨24, 5⟩ (Operand.int 5) = .ok ⟨24, 86400⟩ ∧
    Timecode.sub ⟨24, 5⟩ (Operand.int 5) ≠ .ok ⟨24, 5 - 5⟩ := by decide

/-- Claim C1 (amended): for every operand accepted by the coercion rule,
`a + b` and `a - b` return a new Timecode at `a`'s fps whose `total_frames`
is `a.total_frames ± coerce(b)` whenever that value is non-zero; when it is
exactly 0, the constructor's falsy-zero fallback parses the default
`'01:00:00:00'` string instead, yielding `total_frames = fps * 3600`. -/
theorem C1_add_sub_amended (a : Timecode) (b : Operand) (n : Int)
    (hb : a._frames_from_unknown b = .ok n) :
    a.add b = .ok ⟨a.fps,
      if a.total_frames + n = 0 then a.fps * 3600 else a.total_frames + n⟩ ∧
    a.sub b = .ok ⟨a.fps,
      if a.total_frames - n = 0 then a.fps * 3600 else a.total_frames - n⟩ := by
  constructor <;> simp [Timecode.add, Timecode.sub, hb, init_default_some]

theorem C1_witness :
    Timecode.add ⟨24, 100⟩ (Operand.str "00:00:00:12") = .ok ⟨24,
      if (100 : Int) + 12 = 0 then 24 * 3600 else 100 + 12⟩ ∧
    Timecode.sub ⟨24, 100⟩ (Operand.str "00:00:00:12") = .ok ⟨24,
      if (100 : Int) - 12 = 0 then 24 * 3600 else 100 - 12⟩ :=
  C1_add_sub_amended ⟨24, 100⟩ (Operand.str "00:00:00:12") 12 (by decide)

/-- Claim C7 counterexample: `Timecode(total_frames=10) % Timecode(total_frames=5)`
has remainder `10 % 5 = 0`, but the result's `total_frames` is 86400, not 0:
the zero remainder is falsy in the constructor and the default string is
parsed instead. -/
theorem C7_counterexample :
    Timecode.mod ⟨24, 10⟩ (Operand.tc ⟨24, 5⟩) = .ok ⟨24, 86400⟩ ∧
    Timecode.mod ⟨24, 10⟩ (Operand.tc ⟨24, 5⟩) ≠ .ok ⟨24, Int.fmod 10 5⟩ := by decide

/-- Claim C7 (amended): `a % b` fails with the arithmetic type error for every
non-Timecode operand (including strings and numbers), and for a Timecode `b`
with non-zero `total_frames` it returns a new Timecode at `a`'s fps with
`total_frames = a.total_frames % b.total_frames` whenever that remainder is
non-zero; a zero remainder instead falls back to the default string, giving
`total_frames = fps * 3600`. -/
theorem C7_mod_amended (a b : Timecode) (o : Operand)
    (ho : ∀ t : Timecode, o ≠ Operand.tc t) :
    a.mod o = .error .arithmeticTypeError ∧
    (b.total_frames ≠ 0 → a.mod (Operand.tc b) = .ok ⟨a.fps,
      if a.total_frames.fmod b.total_frames = 0 then a.fps * 3600
      else a.total_frames.fmod b.total_frames⟩) := by
  constructor
  · cases o with
    | str s => rfl
    | int n => rfl
    | tc t => exact absurd rfl (ho t)
  · intro h
    simp [Timecode.mod, h, init_default_some]

theorem C7_witness :
    Timecode.mod ⟨24, 10⟩ (Operand.int 5) = .error .arithmeticTypeError ∧
    Timecode.mod ⟨24, 10⟩ (Operand.tc ⟨24, 7⟩) = .ok ⟨24,
      if Int.fmod 10 7 = 0 then 24 * 3600 else Int.fmod 10 7⟩ :=
  ⟨(C7_mod_amended ⟨24, 10⟩ ⟨24, 7⟩ (Operand.int 5)
      (fun _ hh => Operand.noConfusion hh)).1,
   (C7_mod_amended ⟨24, 10⟩ ⟨24, 7⟩ (Operand.int 5)
      (fun _ hh => Operand.noConfusion hh)).2 (by decide)⟩

/-- Claim C8 counterexample: `Timecode(total_frames=5) / 10` has floor
quotient `5 // 10 = 0`, but the resulting Timecode's `total_frames` is 86400,
not 0: the zero quotient is falsy in the constructor and the default string
is parsed instead. -/
theorem C8_counterexample :
    Timecode.div ⟨24, 5⟩ (Operand.int 10) = .ok (Sum.inr ⟨24, 86400⟩) ∧
    Timecode.div ⟨24, 5⟩ (Operand.int 10) ≠ .ok (Sum.inr ⟨24, Int.fdiv 5 10⟩) := by decide

/-- Claim C8 (amended): division is floor division and the result type
depends on the operand: a Timecode divisor gives a plain integer
`a.total_frames // b.total_frames` (even when that quotient is 0); a numeric
divisor gives a new Timecode at `a`'s fps with the floored quotient as
`total_frames` whenever that quotient is non-zero, and `fps * 3600` when it
is 0 (the constructor's falsy-zero fallback); a coerced divisor of 0 fails
with the division-by-zero error. -/
theorem C8_div_amended (a t : Timecode) (n : Int) (o : Operand) (m : Int)
    (ho : a._frames_from_unknown o = .ok m) :
    (t.total_frames ≠ 0 →
      a.div (Operand.tc t) = .ok (Sum.inl (a.total_frames.fdiv t.total_frames))) ∧
    (n ≠ 0 → a.div (Operand.int n) = .ok (Sum.inr ⟨a.fps,
      if a.total_frames.fdiv n = 0 then a.fps * 3600 else a.total_frames.fdiv n⟩)) ∧
    (m = 0 → a.div o = .error .zeroDivisionError) := by
  refine ⟨fun h => ?_, fun h => ?_, fun h => ?_⟩
  · simp [Timecode.div, Timecode._frames_from_unknown, h]
  · simp [Timecode.div, Timecode._frames_from_unknown, h, init_default_some]
  · subst h
    cases o with
    | str s => simp [Timecode.div, ho]
    | int k =>
      have hk : k = 0 := by simpa [Timecode._frames_from_unknown] using ho
      simp [Timecode.div, Timecode._frames_from_unknown, hk]
    | tc u =>
      have hu : u.total_frames = 0 := by
        simpa [Timecode._frames_from_unknown] using ho
      simp [Timecode.div, Timecode._frames_from_unknown, hu]

theorem C8_witness :
    Timecode.div ⟨24, 100⟩ (Operand.tc ⟨30, 7⟩) = .ok (Sum.inl (Int.fdiv 100 7)) ∧
    Timecode.div ⟨24, 100⟩ (Operand.int 7) = .ok (Sum.inr ⟨24,
      if Int.fdiv 100 7 = 0 then 24 * 3600 else Int.fdiv 100 7⟩) ∧
    Timecode.div ⟨24, 100⟩ (Operand.tc ⟨30, 0⟩) = .error .zeroDivisionError :=
  ⟨(C8_div_amended ⟨24, 100⟩ ⟨30, 7⟩ 7 (Operand.tc ⟨30, 0⟩) 0 (by decide)).1 (by decide),
   (C8_div_amended ⟨24, 100⟩ ⟨30, 7⟩ 7 (Operand.tc ⟨30, 0⟩) 0 (by decide)).2.1 (by decide),
   (C8_div_amended ⟨24, 100⟩ ⟨30, 7⟩ 7 (Operand.tc ⟨30, 0⟩) 0 (by decide)).2.2 rfl⟩

/-- Decomposition identity: for every Timecode, `total_frames` equals the
weighted sum of the four components read back through the accessors.  This
is the chained floor-division/remainder identity and holds for any state. -/
lemma total_decomp (t : Timecode) :
    t.total_frames = t._get_hours * (t.fps * 3600) + t._get_minutes * (t.fps * 60) +
      t._getSeconds * t.fps + t.get_frames := by
  have h1 := Int.fdiv_add_fmod t.total_frames (t.fps * 3600)
  have h2 := Int.fdiv_add_fmod (t.total_frames.fmod (t.fps * 3600)) (t.fps * 60)
  have h3 := Int.fdiv_add_fmod ((t.total_frames.fmod (t.fps * 3600)).fmod (t.fps * 60)) t.fps
  simp only [Timecode._get_hours, Timecode._get_minutes, Timecode._getSeconds,
    Timecode.get_frames, Timecode._tc_component_from_timebases, tcWhittle,
    Timecode.fph, Timecode.fpm]
  linear_combination (-1 : Int) * h1 - h2 - h3

/-- Claim C2: after any finite sequence of integer writes to the hours,
minutes, seconds, or frames components, the weight invariant
`total_frames == hours*fps*3600 + minutes*fps*60 + seconds*fps + frames`
holds of the values read back through the component accessors. -/
theorem C2_weight_invariant (st : Timecode) (ws : List ComponentWrite)
    (_hfps : 0 < st.fps) :
    (applyWrites st ws).total_frames =
      (applyWrites st ws)._get_hours * ((applyWrites st ws).fps * 3600) +
      (applyWrites st ws)._get_minutes * ((applyWrites st ws).fps * 60) +
      (applyWrites st ws)._getSeconds * (applyWrites st ws).fps +
      (applyWrites st ws).get_frames :=
  total_decomp (applyWrites st ws)

theorem C2_witness :
    (applyWrites ⟨24, 124⟩ [ComponentWrite.minutes 70, ComponentWrite.frames 2]).total_frames =
      (applyWrites ⟨24, 124⟩ [ComponentWrite.minutes 70, ComponentWrite.frames 2])._get_hours *
        ((applyWrites ⟨24, 124⟩ [ComponentWrite.minutes 70, ComponentWrite.frames 2]).fps * 3600) +
      (applyWrites ⟨24, 124⟩ [ComponentWrite.minutes 70, ComponentWrite.frames 2])._get_minutes *
        ((applyWrites ⟨24, 124⟩ [ComponentWrite.minutes 70, ComponentWrite.frames 2]).fps * 60) +
      (applyWrites ⟨24, 124⟩ [ComponentWrite.minutes 70, ComponentWrite.frames 2])._getSeconds *
        (applyWrites ⟨24, 124⟩ [ComponentWrite.minutes 70, ComponentWrite.frames 2]).fps +
      (applyWrites ⟨24, 124⟩ [ComponentWrite.minutes 70, ComponentWrite.frames 2]).get_frames :=
  C2_weight_invariant ⟨24, 124⟩ [ComponentWrite.minutes 70, ComponentWrite.frames 2] (by decide)

/-- Splitting never produces the empty list of fields. -/
lemma splitCols_ne_nil (l : List Char) : splitCols l ≠ [] := by
  cases l with
  | nil => simp [splitCols]
  | cons c cs =>
    rcases h : splitCols cs with _ | ⟨f, fs⟩
    · simp [splitCols, h]
    · by_cases hc : c = ':' <;> simp [splitCols, h, hc]

/-- A colon-free string splits into a single field. -/
lemma splitCols_single (a : List Char) (ha : ':' ∉ a) : splitCols a = [a] := by
  induction a with
  | nil => rfl
  | cons c cs ih =>
    have hc : c ≠ ':' := fun hh => ha (hh ▸ List.mem_cons_self c cs)
    have hcs : ':' ∉ cs := fun hh => ha (List.mem_cons_of_mem c hh)
    simp [splitCols, ih hcs, hc]

/-- Splitting peels off one colon-free field before a separator. -/
lemma splitCols_append (a rest : List Char) (ha : ':' ∉ a) :
    splitCols (a ++ ':' :: rest) = a :: splitCols rest := by
  induction a with
  | nil =>
    rcases h : splitCols rest with _ | ⟨f, fs⟩
    · exact absurd h (splitCols_ne_nil rest)
    · simp [splitCols, h]
  | cons c cs ih =>
    have hc : c ≠ ':' := fun hh => ha (hh ▸ List.mem_cons_self c cs)
    have hcs : ':' ∉ cs := fun hh => ha (List.mem_cons_of_mem c hh)
    simp [splitCols, ih hcs, hc]

/-- A character list accepted by the digit accumulator contains no colon. -/
lemma digitsAux_no_colon (l : List Char) (acc n : Nat)
    (h : digitsAux l acc = some n) : ':' ∉ l := by
  induction l generalizing acc with
  | nil => simp
  | cons c cs ih =>
    rcases hd : decDigit c with _ | d
    · simp [digitsAux, hd] at h
    · have hc : c ≠ ':' := by
        intro hh
        subst hh
        simp [decDigit] at hd
      simp only [List.mem_cons, not_or]
      exact ⟨fun hh => hc hh.symm, ih (acc * 10 + d) (by simpa [digitsAux, hd] using h)⟩

/-- A string accepted by the Python `int()` model contains no colon. -/
lemma pyInt_no_colon (l : List Char) (v : Int) (h : pyInt l = .ok v) : ':' ∉ l := by
  cases l with
  | nil => simp
  | cons c cs =>
    by_cases hc : c = '-'
    · subst hc
      cases cs with
      | nil => simp [pyInt] at h
      | cons c2 cs2 =>
        rcases hd : digitsAux (c2 :: cs2) 0 with _ | n
        · simp [pyInt, hd] at h
        · have := digitsAux_no_colon (c2 :: cs2) 0 n hd
          simp only [List.mem_cons, not_or] at this ⊢
          exact ⟨by decide, this.1, this.2⟩
    · rcases hd : digitsAux (c :: cs) 0 with _ | n
      · simp [pyInt, hc, hd] at h
      · exact digitsAux_no_colon (c :: cs) 0 n hd

/-- Claim C9: parsing splits on colon and interprets the fields
least-significant-first from the right (rightmost is frames, then seconds,
minutes, hours), so fewer than 4 fields is valid; each field is multiplied
by its positional weight (1, fps, fps*60, fps*3600) and summed with no
bounds validation on any field.  In particular `'04:03:22'` means minutes=4,
seconds=3, frames=22, and a frames field of 90 at 24 fps contributes
exactly 90. -/
theorem C9_parse_fields (a b c d : List Char) (va vb vc vd fps : Int)
    (h1 : pyInt a = .ok va) (h2 : pyInt b = .ok vb)
    (h3 : pyInt c = .ok vc) (h4 : pyInt d = .ok vd) :
    Timecode._frame_count_for_timecode fps
        (String.mk (a ++ (':' :: (b ++ (':' :: (c ++ (':' :: d)))))))
      = .ok (va * (fps * 3600) + vb * (fps * 60) + vc * fps + vd) ∧
    Timecode._frame_count_for_timecode fps
        (String.mk (b ++ (':' :: (c ++ (':' :: d)))))
      = .ok (vb * (fps * 60) + vc * fps + vd) ∧
    Timecode._frame_count_for_timecode 24 "04:03:22" = .ok (4 * (24 * 60) + 3 * 24 + 22) ∧
    Timecode._frame_count_for_timecode 24 "00:00:00:90" = .ok 90 := by
  have na : ':' ∉ a := pyInt_no_colon a va h1
  have nb : ':' ∉ b := pyInt_no_colon b vb h2
  have nc : ':' ∉ c := pyInt_no_colon c vc h3
  have nd : ':' ∉ d := pyInt_no_colon d vd h4
  refine ⟨?_, ?_, by decide, by decide⟩
  · show sumFields ((splitCols (String.mk (a ++ (':' :: (b ++ (':' :: (c ++ (':' :: d))))))).data).reverse)
        [1, fps, fps * 60, fps * 60 * 60] = _
    rw [show (String.mk (a ++ (':' :: (b ++ (':' :: (c ++ (':' :: d))))))).data
        = a ++ (':' :: (b ++ (':' :: (c ++ (':' :: d))))) from rfl]
    rw [splitCols_append a _ na, splitCols_append b _ nb, splitCols_append c _ nc,
      splitCols_single d nd]
    simp [sumFields, h1, h2, h3, h4]
    ring
  · show sumFields ((splitCols (String.mk (b ++ (':' :: (c ++ (':' :: d))))).data).reverse)
        [1, fps, fps * 60, fps * 60 * 60] = _
    rw [show (String.mk (b ++ (':' :: (c ++ (':' :: d))))).data
        = b ++ (':' :: (c ++ (':' :: d))) from rfl]
    rw [splitCols_append b _ nb, splitCols_append c _ nc, splitCols_single d nd]
    simp [sumFields, h2, h3, h4]
    ring

theorem C9_witness :
    Timecode._frame_count_for_timecode 24
        (String.mk ("01".data ++ (':' :: ("02".data ++ (':' :: ("03".data ++ (':' :: "90".data)))))))
      = .ok (1 * (24 * 3600) + 2 * (24 * 60) + 3 * 24 + 90) ∧
    Timecode._frame_count_for_timecode 24
        (String.mk ("02".data ++ (':' :: ("03".data ++ (':' :: "90".data)))))
      = .ok (2 * (24 * 60) + 3 * 24 + 90) ∧
    Timecode._frame_count_for_timecode 24 "04:03:22" = .ok (4 * (24 * 60) + 3 * 24 + 22) ∧
    Timecode._frame_count_for_timecode 24 "00:00:00:90" = .ok 90 :=
  C9_parse_fields "01".data "02".data "03".data "90".data 1 2 3 90 24
    (by decide) (by decide) (by decide) (by decide)

/-- Two-digit rendering of `0 ≤ n ≤ 99` is inverted exactly by the digit
parser and contains no colon (checked exhaustively). -/
lemma fmt02_inv_fin : ∀ k : Fin 100,
    pyInt (fmt02 (k.val : Int)).data = .ok (k.val : Int) ∧
    ':' ∉ (fmt02 (k.val : Int)).data := by decide

/-- Two-digit rendering of `0 ≤ n ≤ 99` is inverted exactly by the digit
parser and contains no colon. -/
lemma fmt02_inv (n : Nat) (hn : n ≤ 99) :
    pyInt (fmt02 (n : Int)).data = .ok (n : Int) ∧ ':' ∉ (fmt02 (n : Int)).data :=
  fmt02_inv_fin ⟨n, by omega⟩

/-- The repeated floor-division decomposition recovers each in-range
component of a weighted sum exactly. -/
lemma decomp_bounded (fps H M S F : Int) (hfps : 0 < fps)
    (_hH : 0 ≤ H) (hM0 : 0 ≤ M) (hM : M ≤ 59) (hS0 : 0 ≤ S) (hS : S ≤ 59)
    (hF0 : 0 ≤ F) (hF : F < fps) :
    (H * (fps * 3600) + M * (fps * 60) + S * fps + F).fdiv (fps * 3600) = H ∧
    ((H * (fps * 3600) + M * (fps * 60) + S * fps + F).fmod (fps * 3600)).fdiv (fps * 60) = M ∧
    (((H * (fps * 3600) + M * (fps * 60) + S * fps + F).fmod (fps * 3600)).fmod
      (fps * 60)).fdiv fps = S ∧
    (((H * (fps * 3600) + M * (fps * 60) + S * fps + F).fmod (fps * 3600)).fmod
      (fps * 60)).fmod fps = F := by
  have h3600 : (0 : Int) < fps * 3600 := by linarith
  have h60 : (0 : Int) < fps * 60 := by linarith
  have a1 : 0 ≤ M * (fps * 60) := mul_nonneg hM0 h60.le
  have a2 : 0 ≤ S * fps := mul_nonneg hS0 hfps.le
  have a3 : M * (fps * 60) ≤ 59 * (fps * 60) := mul_le_mul_of_nonneg_right hM h60.le
  have a4 : S * fps ≤ 59 * fps := mul_le_mul_of_nonneg_right hS hfps.le
  have hr0 : 0 ≤ M * (fps * 60) + S * fps + F := by linarith
  have hr0lt : M * (fps * 60) + S * fps + F < fps * 3600 := by nlinarith
  have hr1 : 0 ≤ S * fps + F := by linarith
  have hr1lt : S * fps + F < fps * 60 := by nlinarith
  have step1 := (Int.ediv_emod_unique h3600).mpr
    (⟨by ring, hr0, hr0lt⟩ :
      M * (fps * 60) + S * fps + F + fps * 3600 * H
        = H * (fps * 3600) + M * (fps * 60) + S * fps + F ∧ _ ∧ _)
  have step2 := (Int.ediv_emod_unique h60).mpr
    (⟨by ring, hr1, hr1lt⟩ :
      S * fps + F + fps * 60 * M = M * (fps * 60) + S * fps + F ∧ _ ∧ _)
  have step3 := (Int.ediv_emod_unique hfps).mpr
    (⟨by ring, hF0, hF⟩ : F + fps * S = S * fps + F ∧ _ ∧ _)
  have hc1 : (H * (fps * 3600) + M * (fps * 60) + S * fps + F).fdiv (fps * 3600) = H := by
    rw [Int.fdiv_eq_ediv _ h3600.le]
    exact step1.1
  have hm1 : (H * (fps * 3600) + M * (fps * 60) + S * fps + F).fmod (fps * 3600)
      = M * (fps * 60) + S * fps + F := by
    rw [Int.fmod_eq_emod _ h3600.le]
    exact step1.2
  have hc2 : ((H * (fps * 3600) + M * (fps * 60) + S * fps + F).fmod (fps * 3600)).fdiv
      (fps * 60) = M := by
    rw [hm1, Int.fdiv_eq_ediv _ h60.le]
    exact step2.1
  have hm2 : ((H * (fps * 3600) + M * (fps * 60) + S * fps + F).fmod (fps * 3600)).fmod
      (fps * 60) = S * fps + F := by
    rw [hm1, Int.fmod_eq_emod _ h60.le]
    exact step2.2
  have hc3 : (((H * (fps * 3600) + M * (fps * 60) + S * fps + F).fmod (fps * 3600)).fmod
      (fps * 60)).fdiv fps = S := by
    rw [hm2, Int.fdiv_eq_ediv _ hfps.le]
    exact step3.1
  have hc4 : (((H * (fps * 3600) + M * (fps * 60) + S * fps + F).fmod (fps * 3600)).fmod
      (fps * 60)).fmod fps = F := by
    rw [hm2, Int.fmod_eq_emod _ hfps.le]
    exact step3.2
  exact ⟨hc1, hc2, hc3, hc4⟩

/-- Claim C4: for every string in valid `HH:MM:SS:FF` form (two-digit
zero-padded fields with in-range minutes and seconds) and every fps with the
frames field strictly below it, rendering the Timecode obtained by parsing
the string at that fps reproduces the string exactly. -/
theorem C4_roundtrip (h m s f : Nat) (fps : Int)
    (hh : h ≤ 99) (hm : m ≤ 59) (hs : s ≤ 59) (hf : f ≤ 99) (hfps : (f : Int) < fps) :
    (Timecode._frame_count_for_timecode fps
        (fmt02 h ++ ":" ++ fmt02 m ++ ":" ++ fmt02 s ++ ":" ++ fmt02 f)).map
      (fun n => Timecode._get_timecode ⟨fps, n⟩)
      = .ok (fmt02 h ++ ":" ++ fmt02 m ++ ":" ++ fmt02 s ++ ":" ++ fmt02 f) := by
  have hfpos : (0 : Int) < fps := lt_of_le_of_lt (Int.ofNat_nonneg f) hfps
  obtain ⟨ph, nh⟩ := fmt02_inv h hh
  obtain ⟨pm, nm⟩ := fmt02_inv m (by omega)
  obtain ⟨ps, ns⟩ := fmt02_inv s (by omega)
  obtain ⟨pf, nf⟩ := fmt02_inv f hf
  have hcolon : (":" : String).data = [':'] := rfl
  have hdata : (fmt02 h ++ ":" ++ fmt02 m ++ ":" ++ fmt02 s ++ ":" ++ fmt02 f).data
      = (fmt02 (h : Int)).data ++ (':' :: ((fmt02 (m : Int)).data ++
        (':' :: ((fmt02 (s : Int)).data ++ (':' :: (fmt02 (f : Int)).data))))) := by
    simp [hcolon, List.append_assoc]
  have key : Timecode._frame_count_for_timecode fps
      (fmt02 h ++ ":" ++ fmt02 m ++ ":" ++ fmt02 s ++ ":" ++ fmt02 f)
      = .ok ((h : Int) * (fps * 3600) + (m : Int) * (fps * 60) + (s : Int) * fps + f) := by
    show sumFields
        ((splitCols (fmt02 h ++ ":" ++ fmt02 m ++ ":" ++ fmt02 s ++ ":" ++ fmt02 f).data).reverse)
        [1, fps, fps * 60, fps * 60 * 60] = _
    rw [hdata, splitCols_append _ _ nh, splitCols_append _ _ nm, splitCols_append _ _ ns,
      splitCols_single _ nf]
    simp [sumFields, ph, pm, ps, pf]
    ring
  obtain ⟨dH, dM, dS, dF⟩ := decomp_bounded fps h m s f hfpos (Int.ofNat_nonneg h)
    (Int.ofNat_nonneg m) (by exact_mod_cast hm) (Int.ofNat_nonneg s) (by exact_mod_cast hs)
    (Int.ofNat_nonneg f) hfps
  rw [key]
  simp only [Except.map]
  congr 1
  simp only [Timecode._get_timecode, Timecode._get_hours, Timecode._get_minutes,
    Timecode._getSeconds, Timecode.get_frames, Timecode._tc_component_from_timebases,
    tcWhittle, Timecode.fph, Timecode.fpm]
  rw [dH, dM, dS, dF]

theorem C4_witness :
    (Timecode._frame_count_for_timecode 24
        (fmt02 1 ++ ":" ++ fmt02 2 ++ ":" ++ fmt02 3 ++ ":" ++ fmt02 4)).map
      (fun n => Timecode._get_timecode ⟨24, n⟩)
      = .ok (fmt02 1 ++ ":" ++ fmt02 2 ++ ":" ++ fmt02 3 ++ ":" ++ fmt02 4) :=
  C4_roundtrip 1 2 3 4 24 (by decide) (by decide) (by decide) (by decide) (by decide)

end EditMaster
